import Mathlib

/-!
Verification development for the session-supervision core of
zerodice0/youtube-rtsp-proxy.

The Go source is shallowly embedded: `time.Duration` values become `Int`
nanoseconds, `time.Time` stamps become `Int` nanoseconds since epoch,
Go `int`/`int64` counters become `Int`, Go strings become Lean `String`
(operated on character-wise), and the external collaborators (yt-dlp
extractor, FFmpeg process runner, MediaMTX server, OS process table)
become explicit oracle environments.  The `float64` arithmetic of the
backoff multiplier is modelled by exact rational arithmetic followed by
Go's float-to-integer conversion (truncation toward zero); this is exact
in the magnitude regime of the configured delays (below 2^53 ns).
-/

namespace YRP

/-- Stream lifecycle states, from `internal/stream` (`State` constants
`StateIdle .. StateError`). -/
inductive StState where
  | idle
  | starting
  | running
  | reconnecting
  | stopping
  | error
deriving DecidableEq, Repr

/-- The `Stream` struct of `internal/stream`: identity, current URL,
lifecycle state and health counters of one relay session.  Timestamps are
`Int` nanoseconds; the `mu` mutex and the `FFmpegCmd` handle carry no
sequential meaning and are omitted. -/
structure Stream where
  id : String
  name : String
  youtubeURL : String
  streamURL : String
  rtspPath : String
  port : Int
  state : StState
  ffmpegPID : Int
  createdAt : Int
  startedAt : Int
  lastChecked : Int
  lastURLRefresh : Int
  errorCount : Int
  consecutiveErrors : Int
  lastError : String
  lastBytesReceived : Int
  stallCount : Int
deriving DecidableEq, Repr

/-- Embeds `Stream.SetState`. -/
def SetState (s : Stream) (st : StState) : Stream :=
  { s with state := st }

/-- Embeds `Stream.SetStreamURL`: updates the URL and stamps `LastURLRefresh`
with the current time (`time.Now()` is passed in as `now`). -/
def SetStreamURL (s : Stream) (url : String) (now : Int) : Stream :=
  { s with streamURL := url, lastURLRefresh := now }

/-- Embeds `Stream.SetFFmpegPID`. -/
def SetFFmpegPID (s : Stream) (pid : Int) : Stream :=
  { s with ffmpegPID := pid }

/-- Embeds `Stream.SetStartedAt`. -/
def SetStartedAt (s : Stream) (t : Int) : Stream :=
  { s with startedAt := t }

/-- Embeds `Stream.IncrementErrorCount`: bumps both the monotonic total and the
consecutive-error counter. -/
def IncrementErrorCount (s : Stream) : Stream :=
  { s with errorCount := s.errorCount + 1,
           consecutiveErrors := s.consecutiveErrors + 1 }

/-- Embeds `Stream.ResetConsecutiveErrors`. -/
def ResetConsecutiveErrors (s : Stream) : Stream :=
  { s with consecutiveErrors := 0 }

/-- Embeds `Stream.SetLastError`. -/
def SetLastError (s : Stream) (e : String) : Stream :=
  { s with lastError := e }

/-- Embeds `Stream.SetLastChecked`. -/
def SetLastChecked (s : Stream) (t : Int) : Stream :=
  { s with lastChecked := t }

/-- Embeds `Stream.UpdateBytesReceived`: returns the updated stream and `true`
iff data is flowing.  Unchanged byte counter increments `StallCount` and
returns `false`; a changed counter records the new value and resets
`StallCount` to 0. -/
def UpdateBytesReceived (s : Stream) (bytes : Int) : Stream × Bool :=
  if bytes = s.lastBytesReceived then
    ({ s with stallCount := s.stallCount + 1 }, false)
  else
    ({ s with lastBytesReceived := bytes, stallCount := 0 }, true)

/-- Embeds `Stream.NewStream`: fresh stream in `StateIdle` with zeroed counters.
`generateID`'s wall-clock-derived value is irrelevant to every claim and
is modelled as the empty string; `CreatedAt` is the `now` parameter. -/
def NewStream (name youtubeURL : String) (port : Int) (now : Int) : Stream :=
  { id := ""
    name := name
    youtubeURL := youtubeURL
    streamURL := ""
    rtspPath := "/" ++ name
    port := port
    state := StState.idle
    ffmpegPID := 0
    createdAt := now
    startedAt := 0
    lastChecked := 0
    lastURLRefresh := 0
    errorCount := 0
    consecutiveErrors := 0
    lastError := ""
    lastBytesReceived := 0
    stallCount := 0 }

/-- Embeds `config.ReconnectConfig`: delays in `Int` nanoseconds, `Multiplier`
as an exact rational (modelling the `float64`). -/
structure ReconnectConfig where
  initialDelay : Int
  maxDelay : Int
  multiplier : ℚ
  maxAttempts : Nat
deriving DecidableEq, Repr

/-- Embeds `config.MonitorConfig`. -/
structure MonitorConfig where
  healthCheckInterval : Int
  urlRefreshInterval : Int
  maxConsecutiveErrors : Int
  reconnect : ReconnectConfig
deriving DecidableEq, Repr

/-- Go's `time.Duration(float64(current) * m)`: the exact rational
product `current * m` truncated toward zero (`Int.tdiv` by the positive
denominator), which is exact float arithmetic in the magnitude regime of
the configured delays. -/
def f64MulDur (current : Int) (m : ℚ) : Int :=
  Int.tdiv (current * m.num) (m.den : Int)

/-- Embeds `Monitor.nextBackoff`: multiply the current delay by the configured
multiplier (float arithmetic, truncated back to a duration) and clamp at
`MaxDelay`. -/
def nextBackoff (cfg : ReconnectConfig) (current : Int) : Int :=
  let next := f64MulDur current cfg.multiplier
  if next > cfg.maxDelay then cfg.maxDelay else next

/-- Iterated backoff: `backoffIter cfg n` is the delay after `n`
applications of `nextBackoff` to the initial delay (the delay used for
attempt `n + 1` of `Monitor.reconnectStream`). -/
def backoffIter (cfg : ReconnectConfig) : Nat → Int
  | 0 => cfg.initialDelay
  | n + 1 => nextBackoff cfg (backoffIter cfg n)

/-- Delay slept after a failure of attempt `n` (attempts numbered from 1),
matching the `backoff` local of `Monitor.reconnectStream`. -/
def backoffDelay (cfg : ReconnectConfig) (n : Nat) : Int :=
  backoffIter cfg (n - 1)

/-- Go's `strings.ToLower` restricted to ASCII (every string the
classifier is fed is ASCII). -/
def goToLower (s : String) : String :=
  ⟨s.data.map Char.toLower⟩

/-- Character-list prefix test (Go's internal prefix comparison). -/
def hasPrefixB : List Char → List Char → Bool
  | _, [] => true
  | [], _ :: _ => false
  | a :: as, b :: bs => a == b && hasPrefixB as bs

/-- Character-list substring test, Go's `strings.Contains`. -/
def containsB : List Char → List Char → Bool
  | [], sub => sub.isEmpty
  | c :: cs, sub => hasPrefixB (c :: cs) sub || containsB cs sub

/-- Go `strings.Contains` on strings. -/
def goContains (s sub : String) : Bool :=
  containsB s.data sub.data

/-- The pattern list of `Monitor.hasURLExpiredError`. -/
def urlErrorPatterns : List String :=
  ["403", "404", "forbidden", "not found", "connection refused",
   "timeout", "expired"]

/-- Embeds `Monitor.hasURLExpiredError`: lowercases the message once, then
reports whether any pattern occurs as a substring. -/
def hasURLExpiredError (errMsg : String) : Bool :=
  let errLower := goToLower errMsg
  urlErrorPatterns.any (fun p => goContains errLower p)

/-- Embeds `Monitor.shouldRefreshURL`: periodic staleness, consecutive-error
threshold, or URL-invalidity pattern.  `now - s.lastURLRefresh` is
`time.Since(s.GetLastURLRefresh())`. -/
def shouldRefreshURL (cfg : MonitorConfig) (now : Int) (s : Stream)
    (reason : String) : Bool :=
  if now - s.lastURLRefresh > cfg.urlRefreshInterval then
    true
  else if s.consecutiveErrors ≥ cfg.maxConsecutiveErrors then
    true
  else if hasURLExpiredError reason then
    true
  else
    false

/-- The configuration of the spec's worked example (and the shipped
defaults): initial 5s, max 5m, multiplier 2.0, 10 attempts.  Durations in
nanoseconds. -/
def sampleReconnectCfg : ReconnectConfig :=
  { initialDelay := 5000000000
    maxDelay := 300000000000
    multiplier := 2
    maxAttempts := 10 }

/-- Embeds `server.PathInfo` (the fields the monitor reads): readiness flag and
received-byte counter of one MediaMTX path. -/
structure PathInfo where
  ready : Bool
  bytesReceived : Int
deriving DecidableEq, Repr

/-- Oracle environment for the monitor's collaborators: the MediaMTX
top-level health check, the OS process table (signal-0 probe), and the
MediaMTX path-status API (`none` models a lookup error). -/
structure MonEnv where
  serverHealthy : Bool
  procAlive : Int → Bool
  pathInfo : String → Option PathInfo

/-- Collaborator queries a health check can make, recorded as a trace so
short-circuiting is observable. -/
inductive Query where
  | procLiveness
  | pathLookup
deriving DecidableEq, Repr

/-- Embeds `monitor.HealthStatus`. -/
structure HealthStatus where
  healthy : Bool
  reason : String
deriving DecidableEq, Repr

/-- Embeds `stream.IsProcessAlive`: non-positive PIDs are dead; otherwise the
OS signal-0 probe decides. -/
def IsProcessAlive (env : MonEnv) (pid : Int) : Bool :=
  if pid ≤ 0 then false else env.procAlive pid

/-- Embeds `Monitor.checkStreamHealth`: the four checks in source order —
FFmpeg process liveness, MediaMTX path lookup, path readiness, stall
detection — short-circuiting at the first failure.  Returns the stream
(updated by `UpdateBytesReceived` when the fourth check runs), the
verdict, and the trace of collaborator queries made. -/
def checkStreamHealth (env : MonEnv) (s : Stream) :
    Stream × HealthStatus × List Query :=
  if ¬ IsProcessAlive env s.ffmpegPID then
    (s, ⟨false, "ffmpeg process not running"⟩, [Query.procLiveness])
  else
    match env.pathInfo s.rtspPath with
    | none =>
        (s, ⟨false, "path not found in MediaMTX"⟩,
         [Query.procLiveness, Query.pathLookup])
    | some pi =>
        if ¬ pi.ready then
          (s, ⟨false, "path not ready"⟩,
           [Query.procLiveness, Query.pathLookup])
        else
          match UpdateBytesReceived s pi.bytesReceived with
          | (s', flowing) =>
              if ¬ flowing ∧ s'.stallCount ≥ 3 then
                (s', ⟨false, "stream stalled (no data flow)"⟩,
                 [Query.procLiveness, Query.pathLookup])
              else
                (s', ⟨true, ""⟩, [Query.procLiveness, Query.pathLookup])

/-- One iteration of the per-stream loop of `Monitor.runHealthChecks`:
non-`Running` streams are skipped untouched (no verdict, no queries);
a healthy verdict resets `ConsecutiveErrors` and stamps `LastChecked`;
an unhealthy verdict leaves the stream to the failure-handling workflow,
which the source spawns as a separate goroutine. -/
def probeOne (env : MonEnv) (now : Int) (s : Stream) :
    Stream × Option HealthStatus × List Query :=
  if s.state ≠ StState.running then
    (s, none, [])
  else
    match checkStreamHealth env s with
    | (s', status, qs) =>
        if status.healthy then
          (SetLastChecked (ResetConsecutiveErrors s') now, some status, qs)
        else
          (s', some status, qs)

/-- Outcome of one probe cycle: either the MediaMTX server failed its
own top-level health check (whole-server recovery, §4.6, takes over and
no per-stream check runs) or the per-stream probe results. -/
inductive CycleResult where
  | serverRecovery
  | probed (results : List (Stream × Option HealthStatus × List Query))
deriving Repr

/-- Embeds `Monitor.runHealthChecks`: server health gate, then the per-stream
probe loop. -/
def runHealthChecks (env : MonEnv) (now : Int) (streams : List Stream) :
    CycleResult :=
  if env.serverHealthy then
    CycleResult.probed (streams.map (probeOne env now))
  else
    CycleResult.serverRecovery

/-- Embeds `storage.StreamData` (the fields the manager reads back). -/
structure StreamData where
  name : String
  youtubeURL : String
  rtspPath : String
  port : Int
  ffmpegPID : Int
deriving DecidableEq, Repr

/-- Association-list lookup, modelling Go map indexing. -/
def alookup (k : String) : List (String × α) → Option α
  | [] => none
  | (k', v) :: rest => if k' = k then some v else alookup k rest

/-- Go map `delete`. -/
def aremove (k : String) (l : List (String × α)) : List (String × α) :=
  l.filter (fun p => p.1 ≠ k)

/-- Go map assignment `m[k] = v`. -/
def ainsert (k : String) (v : α) (l : List (String × α)) :
    List (String × α) :=
  (k, v) :: aremove k l

/-- The mutable state of `stream.Manager` plus the OS process table:
the in-memory stream registry, the FFmpeg handle map (handles reduced to
their PIDs), the on-disk storage entries, and the set of alive PIDs. -/
structure MgrState where
  streams : List (String × Stream)
  processes : List (String × Int)
  storage : List (String × StreamData)
  procs : List Int
deriving DecidableEq, Repr

/-- Oracle environment for the manager's collaborators: the yt-dlp
extractor (`none` = extraction error), the FFmpeg spawn (`none` = start
error, otherwise the fresh PID), the liveness of a freshly spawned
process after the 2-second initialization wait, and the configured
default RTSP port. -/
structure MgrEnv where
  extract : String → Option String
  ffmpegStart : String → Option Int
  procRunning : Int → Bool
  rtspPort : Int

/-- Embeds `stream.KillByPID`: SIGTERM/SIGKILL an OS process.  Every source
path returns a nil error; the effect on the process table is removal of
the PID (a no-op when it is already dead). -/
def KillByPID (alive : List Int) (pid : Int) : List Int × Option String :=
  if pid ≤ 0 then
    (alive, none)
  else
    (alive.filter (fun p => p ≠ pid), none)

/-- Embeds `KillByPID` lifted to the manager state: only the process table
changes, never the registry or storage. -/
def killByPIDSt (st : MgrState) (pid : Int) : MgrState × Option String :=
  match KillByPID st.procs pid with
  | (alive, e) => ({ st with procs := alive }, e)

/-- Embeds `storage.StreamData` built by `Manager.saveStream`. -/
def dataOfStream (s : Stream) : StreamData :=
  { name := s.name
    youtubeURL := s.youtubeURL
    rtspPath := s.rtspPath
    port := s.port
    ffmpegPID := s.ffmpegPID }

/-- Embeds `Manager.Start`: reject duplicate names; default the port; create a
fresh stream in `StateStarting`; extract the playable URL; spawn FFmpeg;
after the initialization wait verify the process is running; only then
mark `StateRunning`, register the stream and the process handle, and
persist to storage.  Every failure leaves the state unchanged. -/
def Start (env : MgrEnv) (now : Int) (st : MgrState)
    (youtubeURL name : String) (port : Int) : MgrState × Option String :=
  if (alookup name st.streams).isSome then
    (st, some ("stream '" ++ name ++ "' already exists"))
  else
    let port' := if port = 0 then env.rtspPort else port
    let s0 := SetState (NewStream name youtubeURL port' now) StState.starting
    match env.extract youtubeURL with
    | none => (st, some "failed to extract stream URL")
    | some url =>
        let s1 := SetStreamURL s0 url now
        match (if url = "" then none else env.ffmpegStart url) with
        | none => (st, some "failed to start ffmpeg")
        | some pid =>
            let s2 := SetFFmpegPID s1 pid
            if ¬ env.procRunning pid then
              (st, some "ffmpeg exited prematurely")
            else
              let s3 := SetStartedAt (SetState s2 StState.running) now
              ({ st with
                  streams := ainsert name s3 st.streams
                  processes := ainsert name pid st.processes
                  storage := ainsert name (dataOfStream s3) st.storage
                  procs := pid :: st.procs }, none)

/-- Embeds `Manager.stopStream`: for an unregistered name, fall back to the
storage entry (kill its PID and delete it) or report "not found"; for a
registered stream, stop/kill its process, remove it from the registry
and delete its storage entry.  The returned stream object passes through
`StateStopping` before removal. -/
def stopStream (st : MgrState) (name : String) : MgrState × Option String :=
  match alookup name st.streams with
  | none =>
      match alookup name st.storage with
      | some d =>
          if d.ffmpegPID > 0 then
            ({ st with
                procs := (KillByPID st.procs d.ffmpegPID).1
                storage := aremove name st.storage }, none)
          else
            (st, some ("stream '" ++ name ++ "' not found"))
      | none => (st, some ("stream '" ++ name ++ "' not found"))
  | some s =>
      let st1 :=
        match alookup name st.processes with
        | some hpid =>
            { st with
                procs := st.procs.filter (fun p => p ≠ hpid)
                processes := aremove name st.processes }
        | none => st
      let st2 :=
        if s.ffmpegPID > 0 then
          { st1 with procs := (KillByPID st1.procs s.ffmpegPID).1 }
        else st1
      ({ st2 with
          streams := aremove name st2.streams
          storage := aremove name st2.storage }, none)

/-- Embeds `Manager.Stop` (the public entry; the mutex adds nothing
sequentially). -/
def Stop (st : MgrState) (name : String) : MgrState × Option String :=
  stopStream st name

/-- Embeds `Manager.RestartStream`: look the stream up, stop it (removing it
from the registry), then `Start` it again with its original YouTube URL
and port.  The stop result is discarded, as in the source. -/
def RestartStream (env : MgrEnv) (now : Int) (st : MgrState)
    (name : String) : MgrState × Option String :=
  match alookup name st.streams with
  | none => (st, some ("stream '" ++ name ++ "' not found"))
  | some s =>
      let st1 := (stopStream st name).1
      Start env now st1 s.youtubeURL name s.port

/-- The kill step at the top of each reconnect attempt
(`if pid := s.GetFFmpegPID(); pid > 0 { stream.KillByPID(pid) }`). -/
def killPidStep (st : MgrState) (pid : Int) : MgrState :=
  if pid > 0 then (killByPIDSt st pid).1 else st

/-- The attempt loop of `Monitor.reconnectStream`, by remaining
attempts: each attempt kills any surviving process, then calls
`Manager.RestartStream`; failure sleeps the backoff delay (no state
effect) and retries; success resets `ConsecutiveErrors` on the session
object and marks it `StateRunning`.  Exhaustion marks it `StateError`.
The returned flag is `true` iff some attempt succeeded. -/
def reconnectLoop (env : MgrEnv) (now : Int) :
    Nat → MgrState → Stream → MgrState × Stream × Bool
  | 0, st, s => (st, SetState s StState.error, false)
  | n + 1, st, s =>
      let st1 := killPidStep st s.ffmpegPID
      match RestartStream env now st1 s.name with
      | (st2, some _) => reconnectLoop env now n st2 s
      | (st2, none) =>
          (st2, SetState (ResetConsecutiveErrors s) StState.running, true)

/-- Embeds `Monitor.reconnectStream`: run the attempt loop for the configured
maximum number of attempts. -/
def reconnectStream (env : MgrEnv) (now : Int) (cfg : MonitorConfig)
    (st : MgrState) (s : Stream) : MgrState × Stream × Bool :=
  reconnectLoop env now cfg.reconnect.maxAttempts st s

/-- The supervisor operations that mutate a session's health counters,
each the composition of setter calls at one monitor call site:
healthy probe (`runHealthChecks` else-branch), failure recording
(`handleStreamFailure` prologue), successful reconnect
(`reconnectStream` success), attempt exhaustion (`reconnectStream`
epilogue), stall bookkeeping (`checkStreamHealth` step 4), and URL
refresh (`refreshStreamURL`). -/
inductive SupOp where
  | probeHealthy (now : Int)
  | recordFailure (reason : String)
  | reconnectSucceed
  | reconnectExhaust
  | updateBytes (b : Int)
  | refreshURL (url : String) (now : Int)
deriving DecidableEq, Repr

/-- Whether an operation is an observed healthy probe. -/
def isHealthyProbe : SupOp → Bool
  | SupOp.probeHealthy _ => true
  | _ => false

/-- Effect of one supervisor operation on the session object. -/
def applyOp (s : Stream) : SupOp → Stream
  | SupOp.probeHealthy now => SetLastChecked (ResetConsecutiveErrors s) now
  | SupOp.recordFailure r =>
      SetState (SetLastError (IncrementErrorCount s) r) StState.reconnecting
  | SupOp.reconnectSucceed =>
      SetState (ResetConsecutiveErrors s) StState.running
  | SupOp.reconnectExhaust => SetState s StState.error
  | SupOp.updateBytes b => (UpdateBytesReceived s b).1
  | SupOp.refreshURL url now => SetStreamURL s url now

/-- A session's trajectory under a sequence of supervisor operations. -/
def runOps (s : Stream) (ops : List SupOp) : Stream :=
  ops.foldl applyOp s

/-- Shipped default monitor configuration (probe every 30s, refresh URLs
every 30min, 3 consecutive errors force a refresh). -/
def sampleMonitorCfg : MonitorConfig :=
  { healthCheckInterval := 30000000000
    urlRefreshInterval := 1800000000000
    maxConsecutiveErrors := 3
    reconnect := sampleReconnectCfg }

/-- A concrete running session used by witnesses and counterexamples. -/
def sLofi : Stream :=
  { NewStream "lofi" "https://www.youtube.com/watch?v=jfKfPfyJRdk" 8554 0 with
      state := StState.running
      streamURL := "https://edge.example.net/live.m3u8"
      ffmpegPID := 42
      lastBytesReceived := 500 }

/-- Manager state with `sLofi` registered, its handle and storage entry
present, and its FFmpeg process alive. -/
def stLofi : MgrState :=
  { streams := [("lofi", sLofi)]
    processes := [("lofi", 42)]
    storage := [("lofi", dataOfStream sLofi)]
    procs := [42] }

/-- The empty manager state. -/
def stEmpty : MgrState :=
  { streams := [], processes := [], storage := [], procs := [] }

/-- Collaborator environment in which every restart fails at the URL
extraction step. -/
def envAllFail : MgrEnv :=
  { extract := fun _ => none
    ffmpegStart := fun _ => none
    procRunning := fun _ => false
    rtspPort := 8554 }

/-- Monitor environment: healthy server, alive processes, ready path
with a fresh byte counter. -/
def envHealthy : MonEnv :=
  { serverHealthy := true
    procAlive := fun _ => true
    pathInfo := fun _ => some { ready := true, bytesReceived := 1000 } }

/-- Monitor environment in which the FFmpeg process is dead but the
path-status API would answer. -/
def envProcDead : MonEnv :=
  { serverHealthy := true
    procAlive := fun _ => false
    pathInfo := fun _ => some { ready := true, bytesReceived := 1000 } }

/-- Monitor environment whose byte counter matches `sLofi`'s recorded
value, so every probe observes a stall. -/
def envStalled : MonEnv :=
  { serverHealthy := true
    procAlive := fun _ => true
    pathInfo := fun _ => some { ready := true, bytesReceived := 500 } }

/-- A freshly created (`StateIdle`) session, never started. -/
def sIdle : Stream :=
  NewStream "queued" "https://www.youtube.com/watch?v=aXb1mxrM_9A" 8554 0

end YRP

namespace YRP

/-- C1 helper: `nextBackoff` is the clamped (min) form of the multiplied
delay. -/
theorem nextBackoff_eq_min (cfg : ReconnectConfig) (d : Int) :
    nextBackoff cfg d
      = min (f64MulDur d cfg.multiplier) cfg.maxDelay := by
  unfold nextBackoff
  dsimp only
  omega

/-- C1: the reconnection delay sequence satisfies `delay 1 = initial`
and `delay (n+1) = min (delay n × multiplier) maxDelay` for every
`n ≥ 1` (the product is taken in Go's float arithmetic, modelled as the
exact rational truncated to a duration); for the sample configuration
initial=5s, multiplier=2.0, max=5m, the delays for attempts 1..10 are
5s, 10s, 20s, 40s, 80s, 160s, 300s, 300s, 300s, 300s. -/
theorem backoff_delay_sequence :
    (∀ cfg : ReconnectConfig, backoffDelay cfg 1 = cfg.initialDelay) ∧
    (∀ (cfg : ReconnectConfig) (n : Nat), 1 ≤ n →
      backoffDelay cfg (n + 1)
        = min (f64MulDur (backoffDelay cfg n) cfg.multiplier)
            cfg.maxDelay) ∧
    (List.range 10).map (fun i => backoffDelay sampleReconnectCfg (i + 1))
      = [5000000000, 10000000000, 20000000000, 40000000000, 80000000000,
         160000000000, 300000000000, 300000000000, 300000000000,
         300000000000] := by
  refine ⟨fun cfg => rfl, fun cfg n hn => ?_, by decide⟩
  obtain ⟨m, rfl⟩ : ∃ m, n = m + 1 := ⟨n - 1, by omega⟩
  show backoffIter cfg (m + 1) = _
  rw [backoffIter, nextBackoff_eq_min]
  rfl

/-- Witness for C1 at a concrete point: the recurrence instantiated at
the sample configuration, n = 6 (the clamping step 160s → 300s). -/
theorem backoff_delay_sequence_witness :
    backoffDelay sampleReconnectCfg 7
      = min (f64MulDur (backoffDelay sampleReconnectCfg 6)
          sampleReconnectCfg.multiplier) sampleReconnectCfg.maxDelay :=
  backoff_delay_sequence.2.1 sampleReconnectCfg 6 (by decide)

/-- C3: the Refresh Policy requires a URL refresh iff the refresh
interval has elapsed since the last refresh, or `consecutive_errors` has
reached the configured threshold, or the Failure Classifier marks the
reason as URL-invalidity; in particular, `consecutive_errors` equal to
the threshold alone forces a refresh. -/
theorem refresh_policy_iff :
    (∀ (cfg : MonitorConfig) (now : Int) (s : Stream) (reason : String),
      shouldRefreshURL cfg now s reason = true ↔
        (now - s.lastURLRefresh > cfg.urlRefreshInterval ∨
         s.consecutiveErrors ≥ cfg.maxConsecutiveErrors ∨
         hasURLExpiredError reason = true)) ∧
    (∀ (cfg : MonitorConfig) (now : Int) (s : Stream) (reason : String),
      s.consecutiveErrors = cfg.maxConsecutiveErrors →
      shouldRefreshURL cfg now s reason = true) := by
  have hiff : ∀ (cfg : MonitorConfig) (now : Int) (s : Stream)
      (reason : String),
      shouldRefreshURL cfg now s reason = true ↔
        (now - s.lastURLRefresh > cfg.urlRefreshInterval ∨
         s.consecutiveErrors ≥ cfg.maxConsecutiveErrors ∨
         hasURLExpiredError reason = true) := by
    intro cfg now s reason
    unfold shouldRefreshURL
    split_ifs with h1 h2 h3
    · simp [h1]
    · simp [h2]
    · simp [h3]
    · simp [h1, h2, h3]
  exact ⟨hiff, fun cfg now s reason h =>
    (hiff cfg now s reason).mpr (Or.inr (Or.inl (le_of_eq h.symm)))⟩

/-- Witness for C3: with the shipped defaults, 3 consecutive errors
force a refresh even though only 1s has passed since the last refresh
and the reason matches no URL-invalidity pattern. -/
theorem refresh_policy_iff_witness :
    shouldRefreshURL sampleMonitorCfg 1000000000
      { sLofi with consecutiveErrors := 3 } "socket closed by peer" = true :=
  refresh_policy_iff.2 sampleMonitorCfg 1000000000
    { sLofi with consecutiveErrors := 3 } "socket closed by peer" rfl

/-- C6: in a probe cycle with a healthy server, the prober runs the
per-stream loop, and any session not in `Running` state is skipped:
returned untouched, with no verdict and no collaborator queries. -/
theorem prober_skips_non_running :
    (∀ (env : MonEnv) (now : Int) (streams : List Stream),
      env.serverHealthy = true →
      runHealthChecks env now streams
        = CycleResult.probed (streams.map (probeOne env now))) ∧
    (∀ (env : MonEnv) (now : Int) (s : Stream),
      s.state ≠ StState.running →
      probeOne env now s = (s, none, [])) := by
  constructor
  · intro env now streams h
    unfold runHealthChecks
    simp [h]
  · intro env now s h
    unfold probeOne
    simp [h]

/-- Witness for C6: the idle session passes through a probe cycle
untouched, with no collaborator calls, even in an environment that
would answer every query. -/
theorem prober_skips_non_running_witness :
    probeOne envHealthy 0 sIdle = (sIdle, none, []) :=
  prober_skips_non_running.2 envHealthy 0 sIdle (by decide)

/-- C7: any failure reason containing "403" (case-insensitively, i.e.
after the classifier's lowercasing) is marked as URL-invalidity,
regardless of the rest of the string. -/
theorem classifier_marks_403 (msg : String)
    (h : goContains (goToLower msg) "403" = true) :
    hasURLExpiredError msg = true := by
  unfold hasURLExpiredError urlErrorPatterns
  simp only [List.any_cons, List.any_nil, Bool.or_eq_true]
  exact Or.inl h

/-- Witness for C7 on a concrete mixed-case message. -/
theorem classifier_marks_403_witness :
    hasURLExpiredError "HTTP Error 403: Access Denied For This Video" = true :=
  classifier_marks_403 "HTTP Error 403: Access Denied For This Video"
    (by decide)

/-- Helper: with a live process and a ready path, the health check
reduces to the data-flow stage. -/
theorem checkStreamHealth_flow (env : MonEnv) (s : Stream) (pi : PathInfo)
    (ha : IsProcessAlive env s.ffmpegPID = true)
    (hp : env.pathInfo s.rtspPath = some pi) (hr : pi.ready = true) :
    checkStreamHealth env s
      = (if pi.bytesReceived = s.lastBytesReceived then
          ({ s with stallCount := s.stallCount + 1 },
            (if s.stallCount + 1 ≥ 3 then
              (⟨false, "stream stalled (no data flow)"⟩ : HealthStatus)
            else ⟨true, ""⟩),
            [Query.procLiveness, Query.pathLookup])
         else
          ({ s with lastBytesReceived := pi.bytesReceived, stallCount := 0 },
            ⟨true, ""⟩, [Query.procLiveness, Query.pathLookup])) := by
  unfold checkStreamHealth UpdateBytesReceived
  rw [ha, hp]
  by_cases hb : pi.bytesReceived = s.lastBytesReceived
  · simp only [hb, if_pos, hr, if_true]
    by_cases h3 : s.stallCount + 1 ≥ 3 <;> simp [h3]
  · simp [hb, hr]

/-- C4: for a running probe that reaches the data-flow stage, an
unchanged byte counter increments `stall_count` and yields the
"stream stalled (no data flow)" unhealthy verdict exactly when the
incremented `stall_count` has reached the threshold 3; a changed counter
resets `stall_count` to 0, records the new value, and yields a healthy
verdict, so from a fresh reset two further stalled probes stay healthy
and only the third fires the stall reason again. -/
theorem stall_detection :
    (∀ (s : Stream) (b : Int), b = s.lastBytesReceived →
      UpdateBytesReceived s b
        = ({ s with stallCount := s.stallCount + 1 }, false)) ∧
    (∀ (s : Stream) (b : Int), b ≠ s.lastBytesReceived →
      UpdateBytesReceived s b
        = ({ s with lastBytesReceived := b, stallCount := 0 }, true)) ∧
    (∀ (env : MonEnv) (s : Stream) (pi : PathInfo),
      IsProcessAlive env s.ffmpegPID = true →
      env.pathInfo s.rtspPath = some pi → pi.ready = true →
      pi.bytesReceived = s.lastBytesReceived →
      ((checkStreamHealth env s).1.stallCount = s.stallCount + 1 ∧
        ((checkStreamHealth env s).2.1
            = (⟨false, "stream stalled (no data flow)"⟩ : HealthStatus)
          ↔ s.stallCount + 1 ≥ 3))) ∧
    (∀ (env : MonEnv) (s : Stream) (pi : PathInfo),
      IsProcessAlive env s.ffmpegPID = true →
      env.pathInfo s.rtspPath = some pi → pi.ready = true →
      pi.bytesReceived ≠ s.lastBytesReceived →
      ((checkStreamHealth env s).1.stallCount = 0 ∧
        (checkStreamHealth env s).1.lastBytesReceived = pi.bytesReceived ∧
        (checkStreamHealth env s).2.1.healthy = true)) ∧
    (∀ (env : MonEnv) (s : Stream) (pi : PathInfo),
      IsProcessAlive env s.ffmpegPID = true →
      env.pathInfo s.rtspPath = some pi → pi.ready = true →
      pi.bytesReceived = s.lastBytesReceived → s.stallCount = 0 →
      ((checkStreamHealth env s).2.1.healthy = true ∧
       (checkStreamHealth env (checkStreamHealth env s).1).2.1.healthy
          = true ∧
       (checkStreamHealth env
          (checkStreamHealth env (checkStreamHealth env s).1).1).2.1
          = (⟨false, "stream stalled (no data flow)"⟩ : HealthStatus))) := by
  refine ⟨?_, ?_, ?_, ?_, ?_⟩
  · intro s b hb
    unfold UpdateBytesReceived
    simp [hb]
  · intro s b hb
    unfold UpdateBytesReceived
    simp [hb]
  · intro env s pi ha hp hr hb
    rw [checkStreamHealth_flow env s pi ha hp hr]
    simp only [hb, if_pos]
    by_cases h3 : s.stallCount + 1 ≥ 3
    · simp [h3]
    · simp [h3]
  · intro env s pi ha hp hr hb
    rw [checkStreamHealth_flow env s pi ha hp hr]
    simp [hb]
  · intro env s pi ha hp hr hb h0
    have e1 : checkStreamHealth env s
        = ({ s with stallCount := s.stallCount + 1 },
           (⟨true, ""⟩ : HealthStatus),
           [Query.procLiveness, Query.pathLookup]) := by
      rw [checkStreamHealth_flow env s pi ha hp hr]
      simp only [hb, if_pos]
      have : ¬ s.stallCount + 1 ≥ 3 := by omega
      simp [this]
    set s1 : Stream := { s with stallCount := s.stallCount + 1 } with hs1
    have e2 : checkStreamHealth env s1
        = ({ s1 with stallCount := s1.stallCount + 1 },
           (⟨true, ""⟩ : HealthStatus),
           [Query.procLiveness, Query.pathLookup]) := by
      rw [checkStreamHealth_flow env s1 pi ha hp hr]
      simp only [hs1, hb, if_pos]
      have : ¬ s1.stallCount + 1 ≥ 3 := by simp [hs1]; omega
      simp [this]
    set s2 : Stream := { s1 with stallCount := s1.stallCount + 1 } with hs2
    have e3 : checkStreamHealth env s2
        = ({ s2 with stallCount := s2.stallCount + 1 },
           (⟨false, "stream stalled (no data flow)"⟩ : HealthStatus),
           [Query.procLiveness, Query.pathLookup]) := by
      rw [checkStreamHealth_flow env s2 pi ha hp hr]
      simp only [hs2, hs1, hb, if_pos]
      have : s2.stallCount + 1 ≥ 3 := by simp [hs2, hs1]; omega
      simp [this]
    rw [e1]
    constructor
    · rfl
    constructor
    · rw [e2]
    · rw [e2]
      simp only []
      rw [e3]

/-- Witness for C4: from a freshly reset stall counter, the first two
stalled probes of `sLofi` are healthy and the third reports the stall. -/
theorem stall_detection_witness :
    ((checkStreamHealth envStalled sLofi).2.1.healthy = true ∧
     (checkStreamHealth envStalled
        (checkStreamHealth envStalled sLofi).1).2.1.healthy = true ∧
     (checkStreamHealth envStalled
        (checkStreamHealth envStalled
          (checkStreamHealth envStalled sLofi).1).1).2.1
        = (⟨false, "stream stalled (no data flow)"⟩ : HealthStatus)) :=
  stall_detection.2.2.2.2 envStalled sLofi
    { ready := true, bytesReceived := 500 }
    (by decide) rfl rfl rfl rfl

/-- C5: the Health Prober evaluates process liveness, path lookup, path
readiness and data flow in this order, short-circuiting at the first
failure (a dead process produces no path lookup, whatever the path API
would answer); a fully healthy check resets `consecutive_errors` to 0
and stamps `last_checked`. -/
theorem health_prober_order :
    (∀ (env : MonEnv) (s : Stream),
      IsProcessAlive env s.ffmpegPID = false →
      checkStreamHealth env s
        = (s, ⟨false, "ffmpeg process not running"⟩,
           [Query.procLiveness])) ∧
    (∀ (env : MonEnv) (s : Stream),
      IsProcessAlive env s.ffmpegPID = true →
      env.pathInfo s.rtspPath = none →
      checkStreamHealth env s
        = (s, ⟨false, "path not found in MediaMTX"⟩,
           [Query.procLiveness, Query.pathLookup])) ∧
    (∀ (env : MonEnv) (s : Stream) (pi : PathInfo),
      IsProcessAlive env s.ffmpegPID = true →
      env.pathInfo s.rtspPath = some pi → pi.ready = false →
      checkStreamHealth env s
        = (s, ⟨false, "path not ready"⟩,
           [Query.procLiveness, Query.pathLookup])) ∧
    (∀ (env : MonEnv) (s : Stream) (pi : PathInfo),
      IsProcessAlive env s.ffmpegPID = true →
      env.pathInfo s.rtspPath = some pi → pi.ready = true →
      checkStreamHealth env s
        = (if pi.bytesReceived = s.lastBytesReceived then
            ({ s with stallCount := s.stallCount + 1 },
              (if s.stallCount + 1 ≥ 3 then
                (⟨false, "stream stalled (no data flow)"⟩ : HealthStatus)
              else ⟨true, ""⟩),
              [Query.procLiveness, Query.pathLookup])
           else
            ({ s with lastBytesReceived := pi.bytesReceived, stallCount := 0 },
              ⟨true, ""⟩, [Query.procLiveness, Query.pathLookup]))) ∧
    (∀ (env : MonEnv) (now : Int) (s : Stream),
      s.state = StState.running →
      (checkStreamHealth env s).2.1.healthy = true →
      ((probeOne env now s).1.consecutiveErrors = 0 ∧
       (probeOne env now s).1.lastChecked = now)) := by
  refine ⟨?_, ?_, ?_, checkStreamHealth_flow, ?_⟩
  · intro env s ha
    unfold checkStreamHealth
    simp [ha]
  · intro env s ha hp
    unfold checkStreamHealth
    rw [ha, hp]
    simp
  · intro env s pi ha hp hr
    unfold checkStreamHealth
    rw [ha, hp]
    simp [hr]
  · intro env now s hst hh
    unfold probeOne
    rcases hch : checkStreamHealth env s with ⟨s', status, qs⟩
    rw [hch] at hh
    simp only at hh
    simp [hst, hch, hh, SetLastChecked, ResetConsecutiveErrors]

/-- Witness for C5: a dead FFmpeg process short-circuits the check for
`sLofi` — the verdict is "process not running" and the path API is
never queried, although it would have answered. -/
theorem health_prober_order_witness :
    checkStreamHealth envProcDead sLofi
      = (sLofi, ⟨false, "ffmpeg process not running"⟩,
         [Query.procLiveness]) :=
  health_prober_order.1 envProcDead sLofi (by decide)

/-- Helper: looking up the key just inserted. -/
theorem alookup_ainsert_self {α : Type} (k : String) (v : α)
    (l : List (String × α)) : alookup k (ainsert k v l) = some v := by
  simp [ainsert, alookup]

/-- Helper: looking up the key just removed. -/
theorem alookup_aremove_self {α : Type} (k : String)
    (l : List (String × α)) : alookup k (aremove k l) = none := by
  induction l with
  | nil => rfl
  | cons q rest ih =>
      by_cases h : q.1 = k
      · simpa [aremove, List.filter_cons, h] using ih
      · simpa [aremove, List.filter_cons, h, alookup] using ih

/-- Helper: `stopStream` always leaves the name unregistered. -/
theorem stopStream_not_mem (st : MgrState) (name : String) :
    alookup name (stopStream st name).1.streams = none := by
  unfold stopStream
  cases h : alookup name st.streams with
  | none =>
      cases h2 : alookup name st.storage with
      | none => simpa using h
      | some d =>
          by_cases hp : d.ffmpegPID > 0
          · simpa [hp] using h
          · simpa [hp] using h
  | some s =>
      simp [alookup_aremove_self]

/-- Helper: a failing `Start` leaves the manager state unchanged. -/
theorem Start_err_state {env : MgrEnv} {now : Int} {st : MgrState}
    {url name : String} {port : Int} {st' : MgrState} {e : String}
    (h : Start env now st url name port = (st', some e)) : st' = st := by
  unfold Start at h
  split at h
  · injection h with h1 _
    exact h1.symm
  · dsimp only at h
    split at h
    · injection h with h1 _
      exact h1.symm
    · split at h
      · injection h with h1 _
        exact h1.symm
      · split at h
        · injection h with h1 _
          exact h1.symm
        · injection h with _ h2
          cases h2

/-- Helper: a successful `Start` registers a freshly constructed stream
under the name: counters zeroed and state `Running`. -/
theorem Start_ok_lookup {env : MgrEnv} {now : Int} {st : MgrState}
    {url name : String} {port : Int} {st' : MgrState}
    (h : Start env now st url name port = (st', none)) :
    ∃ s', alookup name st'.streams = some s' ∧ s'.errorCount = 0 ∧
      s'.consecutiveErrors = 0 ∧ s'.stallCount = 0 ∧
      s'.state = StState.running := by
  unfold Start at h
  split at h
  · injection h with _ h2
    cases h2
  · dsimp only at h
    split at h
    · injection h with _ h2
      cases h2
    · split at h
      · injection h with _ h2
        cases h2
      · split at h
        · injection h with _ h2
          cases h2
        · injection h with h1 _
          subst h1
          exact ⟨_, alookup_ainsert_self _ _ _, rfl, rfl, rfl, rfl⟩

/-- Helper: a failing `RestartStream` leaves the name unregistered
(either it was never registered, or the stop step removed it and the
failing start step did not re-register it). -/
theorem RestartStream_err_not_mem {env : MgrEnv} {now : Int}
    {st : MgrState} {name : String} {st' : MgrState} {e : String}
    (h : RestartStream env now st name = (st', some e)) :
    alookup name st'.streams = none := by
  unfold RestartStream at h
  split at h
  case h_1 hl =>
    injection h with h1 _
    subst h1
    exact hl
  case h_2 s hl =>
    dsimp only at h
    rw [Start_err_state h]
    exact stopStream_not_mem st name

/-- Helper: a successful `RestartStream` leaves a fresh `Running`
stream with zeroed counters registered under the name. -/
theorem RestartStream_ok_lookup {env : MgrEnv} {now : Int}
    {st : MgrState} {name : String} {st' : MgrState}
    (h : RestartStream env now st name = (st', none)) :
    ∃ s', alookup name st'.streams = some s' ∧ s'.errorCount = 0 ∧
      s'.consecutiveErrors = 0 ∧ s'.stallCount = 0 ∧
      s'.state = StState.running := by
  unfold RestartStream at h
  split at h
  case h_1 hl =>
    injection h with _ h2
    cases h2
  case h_2 s hl =>
    exact Start_ok_lookup h

/-- C10: if `RestartStream` is called on a registered name and returns
an error (necessarily from its internal `Start` step, since the lookup
succeeded), the name is no longer registered afterwards: the stop step
removed the old stream, and a newly constructed stream — with zeroed
error and stall counters — is registered again only when `Start`
succeeds. -/
theorem restart_failure_unregisters :
    (∀ (env : MgrEnv) (now : Int) (st : MgrState) (name : String)
        (s0 : Stream) (st' : MgrState) (e : String),
      alookup name st.streams = some s0 →
      RestartStream env now st name = (st', some e) →
      alookup name st'.streams = none) ∧
    (∀ (env : MgrEnv) (now : Int) (st : MgrState) (name : String)
        (st' : MgrState),
      RestartStream env now st name = (st', none) →
      ∃ s', alookup name st'.streams = some s' ∧ s'.errorCount = 0 ∧
        s'.consecutiveErrors = 0 ∧ s'.stallCount = 0 ∧
        s'.state = StState.running) :=
  ⟨fun _ _ _ _ _ _ _ _ h => RestartStream_err_not_mem h,
   fun _ _ _ _ _ h => RestartStream_ok_lookup h⟩

/-- Witness for C10: restarting the registered session "lofi" in an
environment where URL extraction fails empties the registry entry. -/
theorem restart_failure_unregisters_witness :
    alookup "lofi"
      (RestartStream envAllFail 0 stLofi "lofi").1.streams = none :=
  restart_failure_unregisters.1 envAllFail 0 stLofi "lofi" sLofi
    (RestartStream envAllFail 0 stLofi "lofi").1
    "failed to extract stream URL" rfl rfl

/-- Helper: a reconnection sequence that runs at least one attempt and
fails them all marks the session object `Error` and leaves the name
unregistered (the first attempt's stop step removed it, and no failed
start re-registered it). -/
theorem reconnectLoop_fail {env : MgrEnv} {now : Int} :
    ∀ (n : Nat) (st : MgrState) (s : Stream) (st' : MgrState)
      (s' : Stream), 1 ≤ n →
      reconnectLoop env now n st s = (st', s', false) →
      s'.state = StState.error ∧ alookup s.name st'.streams = none := by
  intro n
  induction n with
  | zero =>
      intro st s st' s' h1
      exact absurd h1 (by omega)
  | succ k ih =>
      intro st s st' s' _ h
      simp only [reconnectLoop] at h
      rcases hr : RestartStream env now (killPidStep st s.ffmpegPID) s.name
        with ⟨st2, res⟩
      rw [hr] at h
      cases res with
      | some e =>
          dsimp only at h
          cases k with
          | zero =>
              simp only [reconnectLoop] at h
              injection h with h1 h2
              injection h2 with h2a h2b
              subst h1
              subst h2a
              exact ⟨rfl, RestartStream_err_not_mem hr⟩
          | succ m =>
              exact ih st2 s st' s' (by omega) h
      | none =>
          dsimp only at h
          injection h with _ h2
          injection h2 with _ h3
          exact Bool.noConfusion h3

/-- C2 (amended): when the reconnection sequence fails at every one of
the configured attempts (at least one), the session object transitions
to `Error` and the loop takes no further action — but the session does
NOT remain registered: the first failed restart attempt removed it from
the registry (`stopStream` deletes the entry and `Start` re-registers
only on success). -/
theorem reconnect_exhaustion_amended :
    ∀ (env : MgrEnv) (now : Int) (cfg : MonitorConfig) (st : MgrState)
      (s : Stream) (st' : MgrState) (s' : Stream),
      1 ≤ cfg.reconnect.maxAttempts →
      reconnectStream env now cfg st s = (st', s', false) →
      s'.state = StState.error ∧ alookup s.name st'.streams = none :=
  fun _ _ cfg st s st' s' h1 h2 =>
    reconnectLoop_fail cfg.reconnect.maxAttempts st s st' s' h1 h2

/-- C2 counterexample: session "lofi" is registered, every one of the
10 configured attempts fails (URL extraction always errors), the run
ends with the session object in `Error` state — and the registry no
longer contains "lofi", contradicting "remains registered in Error
state". -/
theorem reconnect_exhaustion_cex :
    alookup "lofi" stLofi.streams = some sLofi ∧
    reconnectStream envAllFail 0 sampleMonitorCfg stLofi sLofi
      = (stEmpty, SetState sLofi StState.error, false) ∧
    alookup "lofi"
      (reconnectStream envAllFail 0 sampleMonitorCfg stLofi sLofi).1.streams
      = none := by
  exact ⟨rfl, by decide, by decide⟩

/-- Witness for C2 (amended) at the concrete failing run. -/
theorem reconnect_exhaustion_amended_witness :
    (SetState sLofi StState.error).state = StState.error ∧
    alookup sLofi.name stEmpty.streams = none :=
  reconnect_exhaustion_amended envAllFail 0 sampleMonitorCfg stLofi sLofi
    stEmpty (SetState sLofi StState.error) (by decide) (by decide)

/-- C8 counterexample: stopping a session that is no longer registered
(empty registry, no storage entry) returns a "not found" error — the
claim's "returns no error" fails — although the registry is indeed left
unchanged. -/
theorem stop_already_stopped_cex :
    (Stop stEmpty "ghost").2 = some "stream 'ghost' not found" ∧
    (Stop stEmpty "ghost").1.streams = stEmpty.streams :=
  ⟨rfl, rfl⟩

/-- C8 (amended): stopping an unregistered session always leaves the
in-memory registry unchanged, but returns a "not found" error unless an
orphaned storage entry with a positive PID exists (in which case it
kills that PID, deletes the entry, and returns no error); `KillByPID`
on an already-dead PID returns no error and changes nothing. -/
theorem stop_kill_idempotence_amended :
    (∀ (st : MgrState) (name : String),
      alookup name st.streams = none →
      (Stop st name).1.streams = st.streams) ∧
    (∀ (st : MgrState) (name : String),
      alookup name st.streams = none → alookup name st.storage = none →
      (Stop st name).2 = some ("stream '" ++ name ++ "' not found")) ∧
    (∀ (st : MgrState) (name : String) (d : StreamData),
      alookup name st.streams = none → alookup name st.storage = some d →
      0 < d.ffmpegPID → (Stop st name).2 = none) ∧
    (∀ (st : MgrState) (pid : Int), pid ∉ st.procs →
      killByPIDSt st pid = (st, none)) := by
  refine ⟨?_, ?_, ?_, ?_⟩
  · intro st name h
    unfold Stop stopStream
    rw [h]
    cases h2 : alookup name st.storage with
    | none => rfl
    | some d =>
        dsimp only
        split <;> rfl
  · intro st name h h2
    unfold Stop stopStream
    rw [h, h2]
  · intro st name d h h2 hp
    unfold Stop stopStream
    rw [h, h2]
    dsimp only
    rw [if_pos hp]
  · intro st pid hp
    unfold killByPIDSt KillByPID
    by_cases h : pid ≤ 0
    · simp [h]
    · rw [if_neg h]
      have hf : st.procs.filter (fun p => decide (p ≠ pid)) = st.procs :=
        List.filter_eq_self.mpr (fun a ha => by
          simp only [ne_eq, decide_eq_true_eq]
          exact fun he => hp (he ▸ ha))
      rw [hf]

/-- Witness for C8 (amended): killing a PID absent from the process
table (already dead) returns no error and leaves the manager state
untouched. -/
theorem stop_kill_idempotence_amended_witness :
    killByPIDSt stEmpty 031337 = (stEmpty, none) :=
  stop_kill_idempotence_amended.2.2.2 stEmpty 031337 (by decide)

/-- Helper: every state reachable from a fresh session by supervisor
operations has a nonnegative consecutive-error counter. -/
theorem runOps_consec_nonneg :
    ∀ (ops : List SupOp) (s : Stream), 0 ≤ s.consecutiveErrors →
      0 ≤ (runOps s ops).consecutiveErrors := by
  intro ops
  induction ops with
  | nil => exact fun s h => h
  | cons op rest ih =>
      intro s h
      show 0 ≤ (runOps (applyOp s op) rest).consecutiveErrors
      refine ih (applyOp s op) ?_
      cases op with
      | probeHealthy now =>
          simp [applyOp, SetLastChecked, ResetConsecutiveErrors]
      | recordFailure r =>
          simp only [applyOp, SetState, SetLastError, IncrementErrorCount]
          omega
      | reconnectSucceed =>
          simp [applyOp, SetState, ResetConsecutiveErrors]
      | reconnectExhaust =>
          simpa [applyOp, SetState] using h
      | updateBytes b =>
          simp only [applyOp, UpdateBytesReceived]
          split <;> simpa using h
      | refreshURL url now =>
          simpa [applyOp, SetStreamURL] using h

/-- C9 counterexample: after one recorded failure (nonzero
`consecutive_errors`), a successful reconnection — which is not an
observed healthy probe — resets `consecutive_errors` to 0, refuting
"reset to 0 only on an observed healthy probe". -/
theorem consec_reset_on_reconnect_cex :
    (runOps (NewStream "lofi" "https://www.youtube.com/watch?v=x" 8554 0)
        [SupOp.recordFailure "ffmpeg process not running"]).consecutiveErrors
      ≠ 0 ∧
    isHealthyProbe SupOp.reconnectSucceed = false ∧
    (applyOp
        (runOps (NewStream "lofi" "https://www.youtube.com/watch?v=x" 8554 0)
          [SupOp.recordFailure "ffmpeg process not running"])
        SupOp.reconnectSucceed).consecutiveErrors = 0 :=
  ⟨by decide, rfl, by decide⟩

/-- C9 (amended): along every supervisor-operation trajectory of a
session, `consecutive_errors` is reset to 0 only by an observed healthy
probe OR by a successful reconnection; `error_count` never decreases;
and `stall_count` is reset to 0 whenever the observed byte counter
strictly increases. -/
theorem health_counter_invariants_amended :
    (∀ (name url : String) (port now0 : Int) (ops : List SupOp)
        (op : SupOp),
      (runOps (NewStream name url port now0) ops).consecutiveErrors ≠ 0 →
      (applyOp (runOps (NewStream name url port now0) ops)
          op).consecutiveErrors = 0 →
      isHealthyProbe op = true ∨ op = SupOp.reconnectSucceed) ∧
    (∀ (s : Stream) (op : SupOp),
      s.errorCount ≤ (applyOp s op).errorCount) ∧
    (∀ (s : Stream) (b : Int), s.lastBytesReceived < b →
      (applyOp s (SupOp.updateBytes b)).stallCount = 0) := by
  refine ⟨?_, ?_, ?_⟩
  · intro name url port now0 ops op h1 h2
    have hnn : 0 ≤ (runOps (NewStream name url port now0)
        ops).consecutiveErrors :=
      runOps_consec_nonneg ops _ (by simp [NewStream])
    cases op with
    | probeHealthy now => exact Or.inl rfl
    | recordFailure r =>
        simp only [applyOp, SetState, SetLastError,
          IncrementErrorCount] at h2
        omega
    | reconnectSucceed => exact Or.inr rfl
    | reconnectExhaust =>
        simp only [applyOp, SetState] at h2
        exact absurd h2 h1
    | updateBytes b =>
        simp only [applyOp, UpdateBytesReceived] at h2
        split at h2 <;> exact absurd h2 h1
    | refreshURL url2 now =>
        simp only [applyOp, SetStreamURL] at h2
        exact absurd h2 h1
  · intro s op
    cases op with
    | probeHealthy now =>
        simp [applyOp, SetLastChecked, ResetConsecutiveErrors]
    | recordFailure r =>
        simp only [applyOp, SetState, SetLastError, IncrementErrorCount]
        omega
    | reconnectSucceed => simp [applyOp, SetState, ResetConsecutiveErrors]
    | reconnectExhaust => simp [applyOp, SetState]
    | updateBytes b =>
        simp only [applyOp, UpdateBytesReceived]
        split <;> simp
    | refreshURL url now => simp [applyOp, SetStreamURL]
  · intro s b hb
    have hne : ¬ (b = s.lastBytesReceived) := by omega
    simp [applyOp, UpdateBytesReceived, hne]

/-- Witness for C9 (amended): exercising the first conjunct at one
recorded failure followed by a healthy probe. -/
theorem health_counter_invariants_amended_witness :
    isHealthyProbe (SupOp.probeHealthy 5) = true ∨
      SupOp.probeHealthy 5 = SupOp.reconnectSucceed :=
  health_counter_invariants_amended.1 "lofi"
    "https://www.youtube.com/watch?v=x" 8554 0
    [SupOp.recordFailure "ffmpeg process not running"]
    (SupOp.probeHealthy 5) (by decide) (by decide)

end YRP
